import Mathlib

/-!
Verification development for the agent_samwise orchestration core.

Shallow embedding of the Rust sources of `agent_samwise` (orchestration loop,
execution engine, verification engine, audit store, conversation memory),
together with theorems settling the behavioural claims about those
components.

Modelling conventions, used throughout:
* `Uuid` values are modelled as `Nat` (they are opaque identifiers; freshly
  generated v4 UUIDs are modelled by fixed values since no claim depends on
  their actual randomness).
* `DateTime<Utc>` timestamps are modelled as `Nat` (wall-clock values are
  outside the scope of the claims; clock reads are modelled as `0`).
* `serde_json::Value` payloads are modelled by the inductive `Json` below,
  whose constructors are exactly the JSON shapes the modelled code builds:
  opaque tool data, the one-field error objects built with
  `json!({"error": ...})`, and the result objects built by the orchestrator.
* External collaborators (planner, tools, state store) are modelled as
  function-valued parameters, matching the trait objects of the source.
-/

namespace AgentSamwise

/-! ## models.rs: core data model -/

/-- Model of `models.rs` `RiskTolerance` (serde lowercase). -/
inductive RiskTolerance where
  | Low
  | Medium
  | High
deriving Repr, DecidableEq

/-- Model of `models.rs` `TimeHorizon` (serde lowercase). -/
inductive TimeHorizon where
  | ShortTerm
  | MediumTerm
  | LongTerm
deriving Repr, DecidableEq

/-- Model of `models.rs` `RiskLevel`. -/
inductive RiskLevel where
  | Low
  | Medium
  | High
  | Critical
deriving Repr, DecidableEq

/-- Model of `models.rs` `ExecutionStatus`. -/
inductive ExecutionStatus where
  | Success
  | Failed
  | Skipped
deriving Repr, DecidableEq

/-- Model of the `serde_json::Value` payloads constructed by the modelled
code: `raw` stands for an opaque tool data payload, `errObj msg` for
`json!({"error": msg})`, `statusObj n` for
`json!({"status": "success", "observations": n})`, and
`resultObj` / `resultPlain` for the two result objects built by
`Orchestrator::run` on success. -/
inductive Json where
  | raw (s : String)
  | errObj (msg : String)
  | statusObj (observations : Nat)
  | resultObj (observations : Nat) (tool_name : String) (tool_output : Json)
      (summary : String)
  | resultPlain (observations : Nat) (summary : String)
deriving Repr, DecidableEq

/-- Model of `models.rs` `GoalContext`. -/
structure GoalContext where
  current_portfolio : Option String
  constraints : List String
  risk_tolerance : RiskTolerance
  time_horizon : TimeHorizon
deriving Repr, DecidableEq

/-- Model of `models.rs` `Goal` (`created_at : DateTime<Utc>` modelled as `Nat`). -/
structure Goal where
  goal_id : Nat
  tenant_id : Nat
  user_id : Nat
  influencer_id : Option Nat
  description : String
  created_at : Nat
  context : GoalContext
deriving Repr, DecidableEq

/-- Model of `models.rs` `PlanStep`. -/
structure PlanStep where
  step_id : Nat
  order : Nat
  tool_name : String
  tool_input : Json
  expected_output : String
  dependencies : List Nat
deriving Repr, DecidableEq

/-- Model of `models.rs` `Plan` (timestamps modelled as `Nat`). -/
structure Plan where
  plan_id : Nat
  tenant_id : Nat
  user_id : Nat
  influencer_id : Option Nat
  goal_id : Nat
  steps : List PlanStep
  success_criteria : List String
  created_at : Nat
  updated_at : Nat
  replans_count : Nat
  failure_reason : Option String
deriving Repr, DecidableEq

/-- Model of `models.rs` `Observation`. `observation_id` is a fresh v4 UUID in the
source and `created_at` a clock read; both are modelled as `0`.
`execution_time_ms` is a wall-clock duration in the source, modelled as `0`
(no claim concerns real time). -/
structure Observation where
  observation_id : Nat
  tenant_id : Nat
  user_id : Nat
  plan_id : Nat
  step_id : Nat
  tool_name : String
  tool_input : Json
  tool_output : Json
  execution_time_ms : Nat
  created_at : Nat
  status : ExecutionStatus
deriving Repr, DecidableEq

/-- Model of `models.rs` `ContextSnapshot`. -/
structure ContextSnapshot where
  snapshot_id : Nat
  tenant_id : Nat
  user_id : Nat
  plan_id : Nat
  observations : List Observation
  portfolio_state : Option String
  created_at : Nat
  context_hash : String
deriving Repr, DecidableEq

/-- Model of `models.rs` `ComplianceCheck`. -/
structure ComplianceCheck where
  rule_name : String
  passed : Bool
  details : String
deriving Repr, DecidableEq

/-- Model of `models.rs` `VerificationResult` (`verified_at` clock read modelled
as `0`). -/
structure VerificationResult where
  verified : Bool
  risk_level : RiskLevel
  compliance_checks : List ComplianceCheck
  issues : List String
  verified_at : Nat
deriving Repr, DecidableEq

/-- Model of `models.rs` `ExecutionRecord` (the `Arc<...>` wrappers of the source are
plain values here). -/
structure ExecutionRecord where
  audit_id : Nat
  tenant_id : Nat
  user_id : Nat
  goal : Goal
  context_snapshot_hash : String
  plan : Plan
  observations : List Observation
  verification_result : VerificationResult
  final_output : Json
  reasoning_trace : List String
  created_at : Nat
  execution_time_ms : Nat
deriving Repr, DecidableEq

/-- Model of `models.rs` `ToolInput`. -/
structure ToolInput where
  tool_name : String
  parameters : Json
deriving Repr, DecidableEq

/-- Model of `models.rs` `ToolOutput`. -/
structure ToolOutput where
  success : Bool
  data : Json
  error : Option String
deriving Repr, DecidableEq

/-- Model of `models.rs` `OrchestrationResult`. -/
structure OrchestrationResult where
  result : Json
  risk_summary : String
  compliance_statement : String
  audit_id : Nat
  reasoning_trace : List String
deriving Repr, DecidableEq

/-- Model of `error.rs` `OrchestrationError`. Only the variants reachable from the
modelled code paths are listed; the remaining variants of the source enum
(tool / LLM / transport conversions) never occur in the modelled functions. -/
inductive OrchestrationError where
  | PlanningError (msg : String)
  | ExecutionError (msg : String)
  | VerificationError (msg : String)
  | StateError (msg : String)
  | MaxReplansExceeded (msg : String)
  | InvalidPlan (msg : String)
  | Unknown (msg : String)
deriving Repr, DecidableEq

/-! ## memory/store.rs: conversation history -/

/-- Model of `memory/store.rs` `MessageRole`. -/
inductive MessageRole where
  | User
  | Agent
  | System
deriving Repr, DecidableEq

/-- Model of `memory/store.rs` `ConversationMessage` (`message_id` UUID as `Nat`,
`timestamp` as `Nat`). -/
structure ConversationMessage where
  message_id : Nat
  timestamp : Nat
  role : MessageRole
  content : String
  token_count : Nat
  is_summary : Bool
  message_type : Option String
deriving Repr, DecidableEq

/-- Model of `memory/store.rs` `ConversationHistory` (the `VecDeque` is a `List`,
front at the head; timestamps as `Nat`). -/
structure ConversationHistory where
  user_id : Nat
  tenant_id : Nat
  created_at : Nat
  updated_at : Nat
  messages : List ConversationMessage
  total_tokens : Nat
deriving Repr, DecidableEq

namespace ConversationHistory

/-- Model of `ConversationHistory::new`. -/
def new (user_id tenant_id : Nat) : ConversationHistory :=
  { user_id := user_id
    tenant_id := tenant_id
    created_at := 0
    updated_at := 0
    messages := []
    total_tokens := 0 }

/-- Model of `ConversationHistory::add_message`. -/
def add_message (h : ConversationHistory) (message : ConversationMessage) :
    ConversationHistory :=
  { h with
    total_tokens := h.total_tokens + message.token_count
    messages := h.messages ++ [message] }

/-- Model of `ConversationHistory::add_existing_message` (same body as
`add_message` in the source). -/
def add_existing_message (h : ConversationHistory)
    (message : ConversationMessage) : ConversationHistory :=
  { h with
    total_tokens := h.total_tokens + message.token_count
    messages := h.messages ++ [message] }

/-- Model of `ConversationHistory::message_count`. -/
def message_count (h : ConversationHistory) : Nat :=
  h.messages.length

/-- Model of `ConversationHistory::remove_oldest`: pops the front message and
subtracts its token count with `saturating_sub` (which is `Nat`
subtraction). -/
def remove_oldest (h : ConversationHistory) :
    Option ConversationMessage × ConversationHistory :=
  match h.messages with
  | [] => (none, h)
  | m :: rest =>
      (some m,
        { h with
          messages := rest
          total_tokens := h.total_tokens - m.token_count })

/-- Model of `ConversationHistory::recompute_total_tokens`. -/
def recompute_total_tokens (h : ConversationHistory) : ConversationHistory :=
  { h with total_tokens := (h.messages.map (fun m => m.token_count)).sum }

/-- Model of `ConversationHistory::trim_to_recent`: the source pops from the front
while `messages.len() > keep_count + summary_count`, then recomputes the
token total; popping `len - target` fronts is rendered as `List.drop`
(`Nat` subtraction makes the drop count `0` when the length is already at
or below the target). -/
def trim_to_recent (h : ConversationHistory) (keep_count : Nat) :
    ConversationHistory :=
  let summary_count := (h.messages.filter (fun m => m.is_summary)).length
  let target_count := keep_count + summary_count
  let remaining := h.messages.drop (h.messages.length - target_count)
  recompute_total_tokens { h with messages := remaining }

/-- Model of `ConversationHistory::clear`. -/
def clear (h : ConversationHistory) : ConversationHistory :=
  { h with messages := [], total_tokens := 0 }

/-- The invariant stated by the spec: the running `total_tokens` counter
equals the sum of the per-message token counts. -/
def tokensInvariant (h : ConversationHistory) : Prop :=
  h.total_tokens = (h.messages.map (fun m => m.token_count)).sum

instance (h : ConversationHistory) : Decidable (tokensInvariant h) := by
  unfold tokensInvariant; infer_instance

end ConversationHistory

/-! ## execution/mod.rs: execution engine -/

/-- A tool implementation (`tools/mod.rs` trait `Tool::execute`): external
collaborators, modelled as functions from the tool input to either a
`ToolOutput` or an error message. -/
def ToolFn : Type :=
  ToolInput → Except String ToolOutput

/-- The tool registry: `ToolRegistry` maps tool names to tools; modelled as
an association list with first-match lookup (names are unique keys in the
source `HashMap`). -/
def ToolRegistry : Type :=
  List (String × ToolFn)

/-- Model of `ToolRegistry::get`: name lookup. -/
def registryGet (registry : ToolRegistry) (tool_name : String) :
    Option ToolFn :=
  match registry.find? (fun p => p.1 = tool_name) with
  | some p => some p.2
  | none => none

/-- The `step_outputs : HashMap<u32, Value>` of `execute_plan`, as an
association list; `insertOut` conses in front, so `lookupOut` sees the
latest insertion first (the `HashMap` overwrite semantics). -/
def OutMap : Type :=
  List (Nat × Json)

/-- Model of `step_outputs.insert(order, value)`. -/
def insertOut (outputs : OutMap) (order : Nat) (value : Json) : OutMap :=
  (order, value) :: outputs

/-- Model of `step_outputs.get(&order)` / `contains_key`. -/
def lookupOut (outputs : OutMap) (order : Nat) : Option Json :=
  match outputs.find? (fun p => p.1 = order) with
  | some p => some p.2
  | none => none

/-- Model of `format!("{:?}", list)` for a `Vec<u32>`: Rust debug rendering
`[a, b, c]`. -/
def fmtNatList : List Nat → String
  | [] => "[]"
  | d :: ds =>
      "[" ++ toString d ++
        (ds.foldl (fun acc x => acc ++ ", " ++ toString x) "") ++ "]"

/-- The error message of the skipped-observation payload:
`format!("Unmet dependencies: {:?}", missing_dependencies)`. -/
def unmetDepsMsg (missing : List Nat) : String :=
  "Unmet dependencies: " ++ fmtNatList missing

/-- The `Skipped` observation synthesized for a step with unmet
dependencies (execution/mod.rs lines 77-94). -/
def skippedObs (tenant_id user_id plan_id : Nat) (step : PlanStep)
    (missing : List Nat) : Observation :=
  { observation_id := 0
    tenant_id := tenant_id
    user_id := user_id
    plan_id := plan_id
    step_id := step.step_id
    tool_name := step.tool_name
    tool_input := step.tool_input
    tool_output := Json.errObj (unmetDepsMsg missing)
    execution_time_ms := 0
    created_at := 0
    status := ExecutionStatus.Skipped }

/-- The observation built at execution/mod.rs lines 153-165 for a step that
went through tool lookup (status `Success`, `Failed` or `Skipped` for an
unregistered tool). -/
def executedObs (tenant_id user_id plan_id : Nat) (step : PlanStep)
    (tool_output : Json) (status : ExecutionStatus) : Observation :=
  { observation_id := 0
    tenant_id := tenant_id
    user_id := user_id
    plan_id := plan_id
    step_id := step.step_id
    tool_name := step.tool_name
    tool_input := step.tool_input
    tool_output := tool_output
    execution_time_ms := 0
    created_at := 0
    status := status }

/-- The `missing_dependencies` binding of the execution loop: the declared
dependency orders not yet present in `step_outputs`. -/
def missingDeps (step : PlanStep) (step_outputs : OutMap) : List Nat :=
  step.dependencies.filter (fun dep => (lookupOut step_outputs dep).isNone)

/-- The `for step in &plan.steps` loop of `ExecutionEngine::execute_plan`,
threading the `step_outputs` map. Returns the collected observations
together with the list of `step_id`s whose tool was actually invoked
(`tool.execute` called) — the second component instruments the source's
tool invocations so that "the step's tool is never invoked" is a statement
about the model. -/
def execStepsAux (registry : ToolRegistry) (tenant_id user_id plan_id : Nat) :
    List PlanStep → OutMap → List Observation × List Nat
  | [], _ => ([], [])
  | step :: rest, step_outputs =>
      -- 1. hard dependency validation
      let missing_dependencies := missingDeps step step_outputs
      if missing_dependencies.isEmpty then
        -- 2. tool lookup + execution
        match registryGet registry step.tool_name with
        | none =>
            let obs := executedObs tenant_id user_id plan_id step
              (Json.errObj "Tool not registered") ExecutionStatus.Skipped
            let t := execStepsAux registry tenant_id user_id plan_id rest
              step_outputs
            (obs :: t.1, t.2)
        | some tool =>
            match tool { tool_name := step.tool_name,
                         parameters := step.tool_input } with
            | Except.ok output =>
                let obs := executedObs tenant_id user_id plan_id step
                  output.data ExecutionStatus.Success
                let t := execStepsAux registry tenant_id user_id plan_id rest
                  (insertOut step_outputs step.order output.data)
                (obs :: t.1, step.step_id :: t.2)
            | Except.error e =>
                -- 3. fail-fast safety: record the observation and break
                ([executedObs tenant_id user_id plan_id step
                    (Json.errObj e) ExecutionStatus.Failed],
                  [step.step_id])
      else
        -- skipped: synthesize the observation, DO NOT EXECUTE
        let obs := skippedObs tenant_id user_id plan_id step
          missing_dependencies
        let t := execStepsAux registry tenant_id user_id plan_id rest
          step_outputs
        (obs :: t.1, t.2)

/-- Model of `execution/mod.rs` `MAX_STEPS_PER_PLAN` (the defensive ceiling of the
engine). -/
def ENGINE_MAX_STEPS_PER_PLAN : Nat := 50

/-- Model of `ExecutionEngine::execute_plan`. -/
def execute_plan (registry : ToolRegistry) (plan : Plan)
    (tenant_id user_id : Nat) : Except OrchestrationError (List Observation) :=
  if plan.steps.length > ENGINE_MAX_STEPS_PER_PLAN then
    Except.error (OrchestrationError.InvalidPlan
      ("Plan exceeds maximum allowed steps (" ++
        toString ENGINE_MAX_STEPS_PER_PLAN ++ ")"))
  else
    Except.ok
      (execStepsAux registry tenant_id user_id plan.plan_id plan.steps []).1

/-! ## verification/mod.rs: verification engine -/

namespace RiskLevel

/-- Model of `RiskLevel::rank` (verification/mod.rs lines 127-134). -/
def rank : RiskLevel → Nat
  | RiskLevel.Low => 0
  | RiskLevel.Medium => 1
  | RiskLevel.High => 2
  | RiskLevel.Critical => 3

/-- Model of `std::cmp::max` under the `Ord` instance derived from `rank`
(returns the second argument on equality, as `std::cmp::max` does). -/
def maxRisk (a b : RiskLevel) : RiskLevel :=
  if a.rank ≤ b.rank then b else a

/-- Model of `format!("{:?}", risk_level)`: the Rust `Debug` rendering. -/
def debugStr : RiskLevel → String
  | RiskLevel.Low => "Low"
  | RiskLevel.Medium => "Medium"
  | RiskLevel.High => "High"
  | RiskLevel.Critical => "Critical"

end RiskLevel

/-- Model of `verification/mod.rs` `VerificationCheckResult`. -/
structure VerificationCheckResult where
  passed : Bool
  details : String
deriving Repr, DecidableEq

/-- A verification rule (`trait VerificationRule`): a name, the risk
severity if the rule fails, and the rule's check function. -/
structure VRule where
  name : String
  risk_level : RiskLevel
  verify : Plan → List Observation → ContextSnapshot → VerificationCheckResult

/-- The `for rule in &self.rules` loop of `VerificationEngine::verify`: it
runs every rule, collects one `ComplianceCheck` per rule, one issue string
per failed rule, and accumulates the maximum risk among failed rules
(starting from `Low`). The source appends to the ends of `compliance_checks`
and `issues` while folding from the left; the structural recursion below
builds the same lists in the same rule order, and the risk accumulation is
the same fold (max over the failed rules' severities). -/
def runRules (plan : Plan) (observations : List Observation)
    (context : ContextSnapshot) :
    List VRule → List ComplianceCheck × List String × RiskLevel
  | [] => ([], [], RiskLevel.Low)
  | rule :: rest =>
      let result := rule.verify plan observations context
      let check : ComplianceCheck :=
        { rule_name := rule.name
          passed := result.passed
          details := result.details }
      let t := runRules plan observations context rest
      if result.passed then
        (check :: t.1, t.2.1, t.2.2)
      else
        (check :: t.1,
          (rule.name ++ ": " ++ result.details) :: t.2.1,
          RiskLevel.maxRisk rule.risk_level t.2.2)

/-- Model of `VerificationEngine::verify` (always returns `Ok` in the source; the
model returns the `VerificationResult` directly). -/
def verify (rules : List VRule) (plan : Plan)
    (observations : List Observation) (context : ContextSnapshot) :
    VerificationResult :=
  let r := runRules plan observations context rules
  { verified := r.2.1.isEmpty
    risk_level := r.2.2
    compliance_checks := r.1
    issues := r.2.1
    verified_at := 0 }

/-- Model of `AllObservationsSuccessRule` (verification/mod.rs lines 142-177). -/
def AllObservationsSuccessRule : VRule :=
  { name := "all_observations_success"
    risk_level := RiskLevel.High
    verify := fun _ observations _ =>
      let success_count :=
        (observations.filter
          (fun obs => obs.status = ExecutionStatus.Success)).length
      { passed := success_count == observations.length
        details := "Success observations: " ++ toString success_count ++
          "/" ++ toString observations.length } }

/-- Model of `PortfolioRiskRule` (verification/mod.rs lines 180-209): always passes,
reporting whether portfolio state is present. -/
def PortfolioRiskRule : VRule :=
  { name := "portfolio_risk_constraint"
    risk_level := RiskLevel.Medium
    verify := fun _ _ context =>
      { passed := true
        details :=
          if context.portfolio_state.isSome then
            "Portfolio state verified"
          else
            "No portfolio state available (acceptable for planning phase)" } }

/-- Model of `create_default_verification_engine`. -/
def create_default_verification_engine : List VRule :=
  [AllObservationsSuccessRule, PortfolioRiskRule]

/-! ## audit/mod.rs: SHA-256, content hash, audit log

`compute_context_hash` streams the serde JSON serialization of the `Goal`
into a SHA-256 digest and hex-encodes the result.  The digest is computed
here by a full SHA-256 implementation over the UTF-8 bytes of the
serialization (words are `Nat` reduced mod `2^32`); it is checked below
against the FIPS 180 test vectors. -/

/-- Reduce to a 32-bit word. -/
def w32 (n : Nat) : Nat := n % 4294967296

/-- Right rotation of a 32-bit word (for `n < 2^32`). -/
def rotr32 (k n : Nat) : Nat :=
  w32 ((n >>> k) + ((n % (2 ^ k)) <<< (32 - k)))

/-- SHA-256 Σ0. -/
def bsig0 (x : Nat) : Nat := (rotr32 2 x) ^^^ (rotr32 13 x) ^^^ (rotr32 22 x)

/-- SHA-256 Σ1. -/
def bsig1 (x : Nat) : Nat := (rotr32 6 x) ^^^ (rotr32 11 x) ^^^ (rotr32 25 x)

/-- SHA-256 σ0. -/
def ssig0 (x : Nat) : Nat := (rotr32 7 x) ^^^ (rotr32 18 x) ^^^ (x >>> 3)

/-- SHA-256 σ1. -/
def ssig1 (x : Nat) : Nat := (rotr32 17 x) ^^^ (rotr32 19 x) ^^^ (x >>> 10)

/-- SHA-256 `Ch` (the complement of `x` is `x ^^^ (2^32 - 1)`). -/
def chF (x y z : Nat) : Nat := (x &&& y) ^^^ ((x ^^^ 4294967295) &&& z)

/-- SHA-256 `Maj`. -/
def majF (x y z : Nat) : Nat := (x &&& y) ^^^ (x &&& z) ^^^ (y &&& z)

/-- The SHA-256 round constants. -/
def K256 : List Nat :=
  [1116352408, 1899447441, 3049323471, 3921009573,
   961987163, 1508970993, 2453635748, 2870763221,
   3624381080, 310598401, 607225278, 1426881987,
   1925078388, 2162078206, 2614888103, 3248222580,
   3835390401, 4022224774, 264347078, 604807628,
   770255983, 1249150122, 1555081692, 1996064986,
   2554220882, 2821834349, 2952996808, 3210313671,
   3336571891, 3584528711, 113926993, 338241895,
   666307205, 773529912, 1294757372, 1396182291,
   1695183700, 1986661051, 2177026350, 2456956037,
   2730485921, 2820302411, 3259730800, 3345764771,
   3516065817, 3600352804, 4094571909, 275423344,
   430227734, 506948616, 659060556, 883997877,
   958139571, 1322822218, 1537002063, 1747873779,
   1955562222, 2024104815, 2227730452, 2361852424,
   2428436474, 2756734187, 3204031479, 3329325298]

/-- The eight 32-bit state words of SHA-256. -/
structure Hash8 where
  a : Nat
  b : Nat
  c : Nat
  d : Nat
  e : Nat
  f : Nat
  g : Nat
  h : Nat
deriving Repr, DecidableEq

/-- SHA-256 initial state. -/
def sha256Init : Hash8 :=
  ⟨1779033703, 3144134277, 1013904242, 2773480762,
   1359893119, 2600822924, 528734635, 1541459225⟩

/-- Big-endian 8-byte rendering of a length in bits. -/
def be64 (n : Nat) : List Nat :=
  [(n >>> 56) &&& 255, (n >>> 48) &&& 255, (n >>> 40) &&& 255,
   (n >>> 32) &&& 255, (n >>> 24) &&& 255, (n >>> 16) &&& 255,
   (n >>> 8) &&& 255, n &&& 255]

/-- SHA-256 padding: append `0x80`, zero bytes up to 56 mod 64, and the
bit length big-endian. -/
def padMessage (bytes : List Nat) : List Nat :=
  let len := bytes.length
  let zeros := (119 - len % 64) % 64
  bytes ++ 0x80 :: List.replicate zeros 0 ++ be64 (len * 8)

/-- Big-endian 4-byte groups to 32-bit words. -/
def toWords : List Nat → List Nat
  | b0 :: b1 :: b2 :: b3 :: rest =>
      (b0 * 16777216 + b1 * 65536 + b2 * 256 + b3) :: toWords rest
  | _ => []

/-- Chunk a word list into 16-word blocks (fuel-based structural recursion
on the list length so the definition reduces in the kernel). -/
def toBlocksAux : Nat → List Nat → List (List Nat)
  | _, [] => []
  | 0, _ => []
  | fuel + 1, w :: rest =>
      ((w :: rest).take 16) :: toBlocksAux fuel ((w :: rest).drop 16)

/-- Chunk a word list into 16-word blocks. -/
def toBlocks (ws : List Nat) : List (List Nat) :=
  toBlocksAux ws.length ws

/-- Extend a 16-word block with the remaining 48 schedule words. -/
def extendSchedule : Nat → List Nat → List Nat
  | 0, ws => ws
  | n + 1, ws =>
      let i := ws.length
      let word := w32 (ssig1 (ws.getD (i - 2) 0) + ws.getD (i - 7) 0 +
        ssig0 (ws.getD (i - 15) 0) + ws.getD (i - 16) 0)
      extendSchedule n (ws ++ [word])

/-- One SHA-256 round. -/
def roundFn (st : Hash8) (wt kt : Nat) : Hash8 :=
  let t1 := w32 (st.h + bsig1 st.e + chF st.e st.f st.g + kt + wt)
  let t2 := w32 (bsig0 st.a + majF st.a st.b st.c)
  ⟨w32 (t1 + t2), st.a, st.b, st.c, w32 (st.d + t1), st.e, st.f, st.g⟩

/-- SHA-256 block compression. -/
def compressBlock (st : Hash8) (block : List Nat) : Hash8 :=
  let ws := extendSchedule 48 block
  let fin := (ws.zip K256).foldl (fun s p => roundFn s p.1 p.2) st
  ⟨w32 (st.a + fin.a), w32 (st.b + fin.b), w32 (st.c + fin.c),
   w32 (st.d + fin.d), w32 (st.e + fin.e), w32 (st.f + fin.f),
   w32 (st.g + fin.g), w32 (st.h + fin.h)⟩

/-- SHA-256 digest of a byte list, as eight 32-bit words. -/
def sha256Words (bytes : List Nat) : Hash8 :=
  (toBlocks (toWords (padMessage bytes))).foldl compressBlock sha256Init

/-- Lowercase hex digit. -/
def hexDigit (n : Nat) : Char :=
  if n < 10 then Char.ofNat (48 + n) else Char.ofNat (87 + n)

/-- Lowercase 8-digit hex rendering of a 32-bit word. -/
def hexWord (n : Nat) : String :=
  String.mk ((List.range 8).map (fun i => hexDigit ((n >>> ((7 - i) * 4)) &&& 15)))

/-- Model of `hex::encode` of a SHA-256 digest: the 64-character lowercase hex
string. -/
def sha256Hex (bytes : List Nat) : String :=
  let d := sha256Words bytes
  hexWord d.a ++ hexWord d.b ++ hexWord d.c ++ hexWord d.d ++
    hexWord d.e ++ hexWord d.f ++ hexWord d.g ++ hexWord d.h

/-- UTF-8 encoding of a scalar value. -/
def utf8Bytes (c : Nat) : List Nat :=
  if c < 128 then [c]
  else if c < 2048 then
    [192 ||| (c >>> 6), 128 ||| (c &&& 63)]
  else if c < 65536 then
    [224 ||| (c >>> 12), 128 ||| ((c >>> 6) &&& 63), 128 ||| (c &&& 63)]
  else
    [240 ||| (c >>> 18), 128 ||| ((c >>> 12) &&& 63),
     128 ||| ((c >>> 6) &&& 63), 128 ||| (c &&& 63)]

/-- UTF-8 bytes of a string. -/
def strBytes (s : String) : List Nat :=
  (s.data.map (fun c => utf8Bytes c.toNat)).flatten

/-! ### serde JSON serialization of `Goal`

`serde_json::to_writer` renders the `Goal` struct with its fields in
declaration order.  The model renders the same JSON text for the model's
`Goal` (UUID and timestamp fields, being abstracted to `Nat`, are rendered
by `toString`; JSON string escaping covers quote and backslash — the only
escapes the claims can exercise). -/

/-- JSON string-content escaping for quote and backslash. -/
def jsonEscape (s : String) : String :=
  String.mk ((s.data.map (fun c =>
    if c = Char.ofNat 34 then [Char.ofNat 92, Char.ofNat 34]
    else if c = Char.ofNat 92 then [Char.ofNat 92, Char.ofNat 92]
    else [c])).flatten)

/-- A JSON string literal. -/
def jstr (s : String) : String := "\"" ++ jsonEscape s ++ "\""

/-- A JSON optional value (`null` when absent). -/
def jopt (f : α → String) : Option α → String
  | none => "null"
  | some x => f x

/-- A JSON array. -/
def jarr (f : α → String) (xs : List α) : String :=
  match xs with
  | [] => "[]"
  | x :: rest =>
      "[" ++ f x ++ (rest.foldl (fun acc y => acc ++ "," ++ f y) "") ++ "]"

/-- serde rendering of `RiskTolerance` (lowercase rename). -/
def serializeRiskTolerance : RiskTolerance → String
  | RiskTolerance.Low => jstr "low"
  | RiskTolerance.Medium => jstr "medium"
  | RiskTolerance.High => jstr "high"

/-- serde rendering of `TimeHorizon` (lowercase rename). -/
def serializeTimeHorizon : TimeHorizon → String
  | TimeHorizon.ShortTerm => jstr "shortterm"
  | TimeHorizon.MediumTerm => jstr "mediumterm"
  | TimeHorizon.LongTerm => jstr "longterm"

/-- serde rendering of a UUID (a string; the hyphenated v4 text form is
abstracted to the decimal rendering of the model's `Nat`). -/
def serializeUuid (n : Nat) : String := jstr (toString n)

/-- serde rendering of a timestamp (abstracted like UUIDs). -/
def serializeDateTime (n : Nat) : String := jstr (toString n)

/-- serde JSON of `GoalContext`, fields in declaration order. -/
def serializeGoalContext (c : GoalContext) : String :=
  "\x7b\"current_portfolio\":" ++ jopt jstr c.current_portfolio ++
    ",\"constraints\":" ++ jarr jstr c.constraints ++
    ",\"risk_tolerance\":" ++ serializeRiskTolerance c.risk_tolerance ++
    ",\"time_horizon\":" ++ serializeTimeHorizon c.time_horizon ++ "\x7d"

/-- serde JSON of `Goal`, fields in declaration order. -/
def serializeGoal (g : Goal) : String :=
  "\x7b\"goal_id\":" ++ serializeUuid g.goal_id ++
    ",\"tenant_id\":" ++ serializeUuid g.tenant_id ++
    ",\"user_id\":" ++ serializeUuid g.user_id ++
    ",\"influencer_id\":" ++ jopt serializeUuid g.influencer_id ++
    ",\"description\":" ++ jstr g.description ++
    ",\"created_at\":" ++ serializeDateTime g.created_at ++
    ",\"context\":" ++ serializeGoalContext g.context ++ "\x7d"

/-- Model of `audit/mod.rs` `compute_context_hash`: SHA-256 over the streamed JSON
serialization of the goal, hex-encoded.  (The source returns `""` if
serialization fails; serde serialization of `Goal` cannot fail, and the
model's serialization is total.) -/
def compute_context_hash (goal : Goal) : String :=
  sha256Hex (strBytes (serializeGoal goal))

/-- The `AuditLog` record store: a map from audit id to record, modelled as
an association list with insert-at-front (`HashMap` overwrite semantics
under first-match lookup). -/
def AuditLog : Type := List (Nat × ExecutionRecord)

/-- Model of `AuditLog::record`: insert keyed by the record's own audit id. -/
def auditRecord (log : AuditLog) (record : ExecutionRecord) : AuditLog :=
  (record.audit_id, record) :: log

/-- Model of `AuditLog::get`. -/
def auditGet (log : AuditLog) (audit_id : Nat) : Option ExecutionRecord :=
  match log.find? (fun p => p.1 = audit_id) with
  | some p => some p.2
  | none => none

/-- Model of `AuditLog::verify_integrity`: recompute the goal hash of the stored
record and compare; a missing record yields `Ok(false)`. -/
def verify_integrity (log : AuditLog) (audit_id : Nat) :
    Except OrchestrationError Bool :=
  match auditGet log audit_id with
  | some record =>
      Except.ok (compute_context_hash record.goal == record.context_snapshot_hash)
  | none => Except.ok false

/-! ## agent/mod.rs: the orchestration loop -/

/-- Model of `agent/mod.rs` `MAX_REPLAN_ATTEMPTS`. -/
def MAX_REPLAN_ATTEMPTS : Nat := 5

/-- Model of `agent/mod.rs` `MAX_STEPS_PER_PLAN` (the loop-level bound of 20; the
looser engine-level ceiling is `ENGINE_MAX_STEPS_PER_PLAN`). -/
def MAX_STEPS_PER_PLAN : Nat := 20

/-- Model of `summarize_tool_output` (agent/mod.rs lines 165-194).  Modelled by its
`_` branch; the `strategy_builder` / `backtester` / `screener` branches
render tool-specific markdown from the (here opaque) JSON payload, and no
claim depends on the summary text — only on which observation it is
derived from. -/
def summarize_tool_output (observation : Observation) : String :=
  observation.tool_name ++ " completed successfully."

/-- Model of `failed.tool_output.get("error").and_then(Value::as_str)
.unwrap_or("tool execution failed")` from the single-step fast-fail branch
(agent/mod.rs lines 294-298): of the JSON shapes the engine produces for a
non-`Success` observation only `errObj` has an `"error"` field. -/
def errDetail : Json → String
  | Json.errObj msg => msg
  | _ => "tool execution failed"

/-- The single-step fast-fail check of `Orchestrator::run` (agent/mod.rs
lines 288-304): for a one-step plan, the first non-`Success` observation
turns into an immediate `ExecutionError`. -/
def singleStepFastFail (plan : Plan) (observations : List Observation) :
    Option OrchestrationError :=
  if plan.steps.length = 1 then
    match observations.find?
        (fun obs => obs.status != ExecutionStatus.Success) with
    | some failed =>
        some (OrchestrationError.ExecutionError
          (failed.tool_name ++ " failed: " ++ errDetail failed.tool_output))
    | none => none
  else none

/-- The orchestrator's collaborators, as in `Orchestrator::new`:
the planner and the state store are external trait objects, modelled as
functions.  `create_plan` additionally receives the replan counter as a
call index, modelling that the external planner is stateful across calls
(an LLM-backed trait object); the orchestrator passes the goal, context
and optional failure reason exactly as in the source. -/
structure OrchestratorModel where
  create_plan :
    Goal → ContextSnapshot → Option String → Nat →
      Except OrchestrationError Plan
  tool_registry : ToolRegistry
  rules : List VRule
  load_context : Nat → Except OrchestrationError ContextSnapshot
  persist_observation : Observation → Except OrchestrationError Unit

/-- The instrumented outcome of one `Orchestrator::run` call: the returned
value, the number of `Planner::create_plan` invocations made, the
observations passed to `StateStore::persist_observation` (in call order),
and the `ExecutionRecord`s passed to `AuditLog::record` (in call order). -/
structure RunTrace where
  result : Except OrchestrationError OrchestrationResult
  planner_calls : Nat
  persisted : List Observation
  audit_records : List ExecutionRecord
deriving Repr

/-- The `for (i, obs) in observations.iter().enumerate()` persistence loop
of `Orchestrator::run` (agent/mod.rs lines 308-317): pushes one OBSERVE
trace entry per observation and persists each one, propagating the first
persistence error.  Returns the extended trace, the successfully persisted
observations, and the error if one occurred. -/
def persistObservations
    (persist : Observation → Except OrchestrationError Unit) :
    List Observation → Nat → List String →
      List String × List Observation × Option OrchestrationError
  | [], _, tr => (tr, [], none)
  | obs :: rest, i, tr =>
      let tr := tr ++ ["OBSERVE: Step " ++ toString (i + 1) ++ " (" ++
        obs.tool_name ++ ") - " ++ toString obs.execution_time_ms ++ " ms"]
      match persist obs with
      | Except.error e => (tr, [], some e)
      | Except.ok _ =>
          let t := persistObservations persist rest (i + 1) tr
          (t.1, obs :: t.2.1, t.2.2)

/-- The `loop { ... }` of `Orchestrator::run` (agent/mod.rs lines
245-423).  The source loop terminates because `replan_count` increases by
one per iteration and is checked against `MAX_REPLAN_ATTEMPTS` at the top;
the structural `fuel` argument makes that termination explicit, and the
`fuel = 0` branch is unreachable whenever `fuel > MAX_REPLAN_ATTEMPTS + 1 -
replan_count`, as `run` arranges. -/
def runLoop (m : OrchestratorModel) (goal : Goal)
    (context : ContextSnapshot) :
    List String → Nat → Nat → RunTrace
  | _, 0, _ =>
      ⟨Except.error (OrchestrationError.Unknown "unreachable: loop fuel"),
        0, [], []⟩
  | reasoning_trace, fuel + 1, replan_count =>
      if replan_count > MAX_REPLAN_ATTEMPTS then
        ⟨Except.error (OrchestrationError.MaxReplansExceeded
            ("Exceeded " ++ toString MAX_REPLAN_ATTEMPTS ++
              " replan attempts")),
          0, [], []⟩
      else
        let failure_reason :=
          if replan_count > 0 then
            some "Previous execution failed verification"
          else none
        match m.create_plan goal context failure_reason replan_count with
        | Except.error e => ⟨Except.error e, 1, [], []⟩
        | Except.ok plan =>
            if plan.steps.length > MAX_STEPS_PER_PLAN then
              ⟨Except.error (OrchestrationError.InvalidPlan
                  ("Plan exceeds " ++ toString MAX_STEPS_PER_PLAN ++ " steps")),
                1, [], []⟩
            else
              let reasoning_trace := reasoning_trace ++
                ["PLAN: " ++ toString plan.steps.length ++ " steps in plan",
                 "EXECUTE: Running plan steps"]
              match execute_plan m.tool_registry plan goal.tenant_id
                  goal.user_id with
              | Except.error e => ⟨Except.error e, 1, [], []⟩
              | Except.ok observations =>
                  match singleStepFastFail plan observations with
                  | some e => ⟨Except.error e, 1, [], []⟩
                  | none =>
                      let pr := persistObservations m.persist_observation
                        observations 0 reasoning_trace
                      match pr.2.2 with
                      | some e => ⟨Except.error e, 1, pr.2.1, []⟩
                      | none =>
                          let reasoning_trace := pr.1 ++
                            ["VERIFY: Running compliance checks"]
                          let verification_result :=
                            verify m.rules plan observations context
                          let passed_count :=
                            (verification_result.compliance_checks.filter
                              (fun c => c.passed)).length
                          let reasoning_trace := reasoning_trace ++
                            ["VERIFY: " ++ toString passed_count ++ " / " ++
                              toString
                                verification_result.compliance_checks.length ++
                              " rules passed"]
                          if verification_result.verified then
                            let reasoning_trace := reasoning_trace ++
                              ["COMPLETE: Verification passed"]
                            let context_hash := compute_context_hash goal
                            let execution_record : ExecutionRecord :=
                              { audit_id := 0
                                tenant_id := goal.tenant_id
                                user_id := goal.user_id
                                goal := goal
                                context_snapshot_hash := context_hash
                                plan := plan
                                observations := observations
                                verification_result := verification_result
                                final_output :=
                                  Json.statusObj observations.length
                                reasoning_trace := reasoning_trace
                                created_at := 0
                                execution_time_ms := 0 }
                            let primary_observation :=
                              match observations.find?
                                  (fun obs =>
                                    obs.status == ExecutionStatus.Success) with
                              | some obs => some obs
                              | none => observations.head?
                            let result_json :=
                              match primary_observation with
                              | some obs =>
                                  Json.resultObj observations.length
                                    obs.tool_name obs.tool_output
                                    (summarize_tool_output obs)
                              | none =>
                                  Json.resultPlain observations.length
                                    "Execution completed successfully."
                            ⟨Except.ok
                                { result := result_json
                                  risk_summary := RiskLevel.debugStr
                                    verification_result.risk_level
                                  compliance_statement :=
                                    toString passed_count ++ " checks passed"
                                  audit_id := execution_record.audit_id
                                  reasoning_trace := reasoning_trace },
                              1, pr.2.1, [execution_record]⟩
                          else
                            let reasoning_trace := reasoning_trace ++
                              ["REPLAN: Verification failed - attempt " ++
                                toString (replan_count + 1)]
                            let t := runLoop m goal context reasoning_trace
                              fuel (replan_count + 1)
                            ⟨t.result, 1 + t.planner_calls,
                              pr.2.1 ++ t.persisted, t.audit_records⟩

/-- Model of `Orchestrator::run`: loads the context (the fresh `plan_id` assigned to
the loaded context is an opaque UUID, not modelled), seeds the reasoning
trace, and enters the loop with `replan_count = 0` and enough fuel that the
fuel-exhaustion branch is unreachable. -/
def Orchestrator.run (m : OrchestratorModel) (goal : Goal) : RunTrace :=
  match m.load_context goal.user_id with
  | Except.error e => ⟨Except.error e, 0, [], []⟩
  | Except.ok context =>
      runLoop m goal context
        ["INPUT: Goal received", "PLAN: Creating execution plan"]
        (MAX_REPLAN_ATTEMPTS + 2) 0

/-! ## Concrete fixtures

Small concrete values used by the witness theorems to evaluate the model
on explicit inputs. -/

/-- A concrete goal. -/
def goal0 : Goal :=
  { goal_id := 1
    tenant_id := 2
    user_id := 3
    influencer_id := none
    description := "Test goal"
    created_at := 0
    context :=
      { current_portfolio := none
        constraints := []
        risk_tolerance := RiskTolerance.Medium
        time_horizon := TimeHorizon.LongTerm } }

/-- A concrete empty plan. -/
def plan0 : Plan :=
  { plan_id := 10
    tenant_id := 2
    user_id := 3
    influencer_id := none
    goal_id := 1
    steps := []
    success_criteria := []
    created_at := 0
    updated_at := 0
    replans_count := 0
    failure_reason := none }

/-- A concrete all-clear verification result. -/
def vres0 : VerificationResult :=
  { verified := true
    risk_level := RiskLevel.Low
    compliance_checks := []
    issues := []
    verified_at := 0 }

/-- A record whose stored hash is, by construction, the recomputed hash of
its goal. -/
def goodRecord : ExecutionRecord :=
  { audit_id := 3
    tenant_id := 2
    user_id := 3
    goal := goal0
    context_snapshot_hash := compute_context_hash goal0
    plan := plan0
    observations := []
    verification_result := vres0
    final_output := Json.statusObj 0
    reasoning_trace := []
    created_at := 0
    execution_time_ms := 0 }

/-- A record whose stored hash has been corrupted (replaced by the empty
string, which no SHA-256 hex digest equals). -/
def tamperedRecord : ExecutionRecord :=
  { goodRecord with audit_id := 7, context_snapshot_hash := "" }

/-- A non-summary conversation message. -/
def plainMsg (id tok : Nat) : ConversationMessage :=
  { message_id := id
    timestamp := 0
    role := MessageRole.User
    content := "Question"
    token_count := tok
    is_summary := false
    message_type := some "query" }

/-- A summary conversation message. -/
def summaryMsg (id tok : Nat) : ConversationMessage :=
  { message_id := id
    timestamp := 0
    role := MessageRole.System
    content := "Summary"
    token_count := tok
    is_summary := true
    message_type := some "summary" }

/-- The history of the C9 counterexample: an earlier summary message sits
at the front (as it does once later messages have accumulated behind it),
followed by four plain messages and the freshly appended summary. -/
def historyC9 : ConversationHistory :=
  { user_id := 1
    tenant_id := 2
    created_at := 0
    updated_at := 0
    messages :=
      [summaryMsg 100 6, plainMsg 1 4, plainMsg 2 4, plainMsg 3 4,
        plainMsg 4 4, summaryMsg 200 6]
    total_tokens := 28 }

/-- A failed observation, for the verification scenario. -/
def obsFailed0 : Observation :=
  { observation_id := 0
    tenant_id := 2
    user_id := 3
    plan_id := 10
    step_id := 1
    tool_name := "fetch_market_data"
    tool_input := Json.raw "params"
    tool_output := Json.errObj "boom"
    execution_time_ms := 0
    created_at := 0
    status := ExecutionStatus.Failed }

/-- A concrete context snapshot. -/
def ctx0 : ContextSnapshot :=
  { snapshot_id := 0
    tenant_id := 2
    user_id := 3
    plan_id := 10
    observations := []
    portfolio_state := none
    created_at := 0
    context_hash := "hash" }

/-- A tool registry with one succeeding and one failing tool. -/
def registryW : ToolRegistry :=
  [("fetch_market_data",
      fun _ => Except.ok (⟨true, Json.raw "market", none⟩ : ToolOutput)),
   ("failing_tool", fun _ => Except.error "boom")]

/-- A step that declares a dependency on order 7, which nothing provides. -/
def stepDep : PlanStep :=
  { step_id := 5
    order := 2
    tool_name := "fetch_market_data"
    tool_input := Json.raw "params"
    expected_output := "data"
    dependencies := [7] }

/-- First step of the C3 witness plan: succeeds. -/
def stepOk : PlanStep :=
  { step_id := 1
    order := 1
    tool_name := "fetch_market_data"
    tool_input := Json.raw "p1"
    expected_output := "data"
    dependencies := [] }

/-- Second step of the C3 witness plan: its tool fails. -/
def stepBad : PlanStep :=
  { step_id := 2
    order := 2
    tool_name := "failing_tool"
    tool_input := Json.raw "p2"
    expected_output := "data"
    dependencies := [] }

/-- Third step of the C3 witness plan: never reached. -/
def stepAfter : PlanStep :=
  { step_id := 3
    order := 3
    tool_name := "fetch_market_data"
    tool_input := Json.raw "p3"
    expected_output := "data"
    dependencies := [] }

/-- A three-step plan whose second step fails. -/
def planW : Plan :=
  { plan0 with plan_id := 11, steps := [stepOk, stepBad, stepAfter] }

/-- The observations `execute_plan` returns for `planW`: the success for
step 1, the failure for step 2, nothing for step 3. -/
def obsListW : List Observation :=
  [executedObs 2 3 11 stepOk (Json.raw "market") ExecutionStatus.Success,
   executedObs 2 3 11 stepBad (Json.errObj "boom") ExecutionStatus.Failed]

/-- A single-step plan whose one step's tool fails. -/
def planSingleBad : Plan :=
  { plan0 with plan_id := 12, steps := [stepBad] }

/-- A single-step plan whose one step succeeds. -/
def planSingleOk : Plan :=
  { plan0 with plan_id := 13, steps := [stepOk] }

/-- An orchestrator whose planner always proposes `planSingleBad`. -/
def mFail : OrchestratorModel :=
  { create_plan := fun _ _ _ _ => Except.ok planSingleBad
    tool_registry := registryW
    rules := create_default_verification_engine
    load_context := fun _ => Except.ok ctx0
    persist_observation := fun _ => Except.ok () }

/-- An orchestrator whose planner always proposes `planSingleOk`. -/
def mOk : OrchestratorModel :=
  { mFail with create_plan := fun _ _ _ _ => Except.ok planSingleOk }

/-- The failed observation `execute_plan` produces for `planSingleBad`. -/
def obsFailSingle : Observation :=
  executedObs 2 3 12 stepBad (Json.errObj "boom") ExecutionStatus.Failed

/-! ## Helper lemmas -/

/-- Sanity check of the SHA-256 implementation against the FIPS 180-2
test vector for "abc". -/
theorem sha256_abc_vector :
    sha256Words (strBytes "abc") =
      ⟨0xba7816bf, 0x8f01cfea, 0x414140de, 0x5dae2223,
       0xb00361a3, 0x96177a9c, 0xb410ff61, 0xf20015ad⟩ := by
  decide

/-- Sanity check of the SHA-256 implementation against the FIPS 180-2
test vector for the empty message. -/
theorem sha256_empty_vector :
    sha256Words (strBytes "") =
      ⟨0xe3b0c442, 0x98fc1c14, 0x9afbf4c8, 0x996fb924,
       0x27ae41e4, 0x649b934c, 0xa495991b, 0x7852b855⟩ := by
  decide

/-- Every SHA-256 hex digest has 64 characters; in particular
`compute_context_hash` never returns the empty string. -/
theorem compute_context_hash_length (g : Goal) :
    (compute_context_hash g).length = 64 := by
  simp [compute_context_hash, sha256Hex, hexWord, String.length_append,
    String.length]

/-! ## Claims C7, C8, C9, C10 -/

/-- Claim C8: for every conversation history satisfying the token-count
invariant (`total_tokens` equals the sum of the messages' `token_count`
fields), the invariant holds for a fresh history and is preserved by
`add_message`, `add_existing_message`, `remove_oldest`, `trim_to_recent`
and `clear`. -/
theorem C8_total_tokens_invariant (u t : Nat) (h : ConversationHistory)
    (m : ConversationMessage) (k : Nat) (hw : h.tokensInvariant) :
    (ConversationHistory.new u t).tokensInvariant ∧
    (h.add_message m).tokensInvariant ∧
    (h.add_existing_message m).tokensInvariant ∧
    (h.remove_oldest).2.tokensInvariant ∧
    (h.trim_to_recent k).tokensInvariant ∧
    h.clear.tokensInvariant := by
  refine ⟨?_, ?_, ?_, ?_, ?_, ?_⟩
  · simp [ConversationHistory.new, ConversationHistory.tokensInvariant]
  · simp [ConversationHistory.add_message,
      ConversationHistory.tokensInvariant, List.sum_append] at hw ⊢
    omega
  · simp [ConversationHistory.add_existing_message,
      ConversationHistory.tokensInvariant, List.sum_append] at hw ⊢
    omega
  · rcases hmsg : h.messages with _ | ⟨m0, rest⟩
    · simpa [ConversationHistory.remove_oldest, hmsg,
        ConversationHistory.tokensInvariant, hmsg] using
        (by simpa [ConversationHistory.tokensInvariant, hmsg] using hw)
    · simp [ConversationHistory.tokensInvariant, hmsg] at hw
      simp [ConversationHistory.remove_oldest, hmsg,
        ConversationHistory.tokensInvariant]
      omega
  · simp [ConversationHistory.trim_to_recent,
      ConversationHistory.recompute_total_tokens,
      ConversationHistory.tokensInvariant]
  · simp [ConversationHistory.clear, ConversationHistory.tokensInvariant]

/-- Witness for C8 at a concrete history: the invariant holds after adding
two messages to a fresh history and trimming. -/
theorem C8_total_tokens_invariant_witness :
    (((ConversationHistory.new 1 2).add_message (plainMsg 1 4)).trim_to_recent
        0).tokensInvariant :=
  (C8_total_tokens_invariant 1 2
    ((ConversationHistory.new 1 2).add_message (plainMsg 1 4))
    (plainMsg 2 5) 0 (by decide)).2.2.2.2.1

/-- Claim C9 is violated by the code: in the post-summarization trim flow
(`trim_to_recent preserve_recent_count` right after the new summary message
is appended), the earlier summary message at the front of the history is
evicted, although the spec and the function's own documentation say every
summary-flagged message is retained.  `trim_to_recent` keeps the last
`keep_count + summary_count` messages regardless of which of them are
summaries: here `summary_count = 2`, `keep_count = 2`, so of the six
messages the front two — including the old summary — are popped. -/
theorem C9_trim_drops_old_summary :
    (summaryMsg 100 6).is_summary = true ∧
    summaryMsg 100 6 ∈ historyC9.messages ∧
    (historyC9.messages.getLast? = some (summaryMsg 200 6)) ∧
    summaryMsg 100 6 ∉ (historyC9.trim_to_recent 2).messages := by
  decide

/-- Claim C10: `verify_integrity` returns `Ok(false)` for a missing audit
id — the same value as for a stored record whose hash does not match — and
never returns an error. -/
theorem C10_missing_record_indistinguishable (log : AuditLog)
    (audit_id : Nat) :
    (auditGet log audit_id = none →
      verify_integrity log audit_id = Except.ok false) ∧
    (∀ record, auditGet log audit_id = some record →
      compute_context_hash record.goal ≠ record.context_snapshot_hash →
      verify_integrity log audit_id = Except.ok false) ∧
    (∃ b, verify_integrity log audit_id = Except.ok b) := by
  refine ⟨?_, ?_, ?_⟩
  · intro hnone
    simp [verify_integrity, hnone]
  · intro record hrec hne
    simp [verify_integrity, hrec, hne]
  · rcases hg : auditGet log audit_id with _ | record
    · exact ⟨false, by simp [verify_integrity, hg]⟩
    · exact ⟨compute_context_hash record.goal == record.context_snapshot_hash,
        by simp [verify_integrity, hg]⟩

/-- Witness for C10: a concrete missing id and a concrete tampered record
both yield `Ok(false)`. -/
theorem C10_missing_record_indistinguishable_witness :
    verify_integrity [] 0 = Except.ok false ∧
    verify_integrity [(7, tamperedRecord)] 7 = Except.ok false := by
  refine ⟨(C10_missing_record_indistinguishable [] 0).1 rfl,
    (C10_missing_record_indistinguishable [(7, tamperedRecord)] 7).2.1
      tamperedRecord rfl ?_⟩
  intro hcontra
  have hlen := congrArg String.length hcontra
  simp [compute_context_hash_length, tamperedRecord] at hlen

/-- Claim C7: `compute_context_hash` is deterministic (equal goal content
gives equal hex digests), `verify_integrity` returns `Ok(true)` for a
stored record whose stored hash equals the recomputed hash of its goal,
and `Ok(false)` — not an error — when the stored hash differs. -/
theorem C7_context_hash_integrity (g1 g2 : Goal) (log : AuditLog)
    (audit_id : Nat) :
    (g1 = g2 → compute_context_hash g1 = compute_context_hash g2) ∧
    (∀ record, auditGet log audit_id = some record →
      record.context_snapshot_hash = compute_context_hash record.goal →
      verify_integrity log audit_id = Except.ok true) ∧
    (∀ record, auditGet log audit_id = some record →
      record.context_snapshot_hash ≠ compute_context_hash record.goal →
      verify_integrity log audit_id = Except.ok false) := by
  refine ⟨fun hg => by rw [hg], ?_, ?_⟩
  · intro record hrec hmatch
    simp [verify_integrity, hrec, hmatch]
  · intro record hrec hne
    have : compute_context_hash record.goal ≠ record.context_snapshot_hash :=
      fun hcontra => hne hcontra.symm
    simp [verify_integrity, hrec, this]

/-- Witness for C7: determinism at a concrete goal, `Ok(true)` for a
concretely stored unmodified record, `Ok(false)` for a concretely
corrupted one. -/
theorem C7_context_hash_integrity_witness :
    compute_context_hash goal0 = compute_context_hash goal0 ∧
    verify_integrity [(3, goodRecord)] 3 = Except.ok true ∧
    verify_integrity [(7, tamperedRecord)] 7 = Except.ok false := by
  refine ⟨(C7_context_hash_integrity goal0 goal0 [] 0).1 rfl,
    (C7_context_hash_integrity goal0 goal0 [(3, goodRecord)] 3).2.1
      goodRecord rfl rfl,
    (C7_context_hash_integrity goal0 goal0 [(7, tamperedRecord)] 7).2.2
      tamperedRecord rfl ?_⟩
  intro hcontra
  have hlen := congrArg String.length hcontra
  simp [compute_context_hash_length, tamperedRecord] at hlen

/-! ## Claim C5: the verification engine -/

/-- Model of `rank` of `maxRisk` is the `max` of the ranks. -/
theorem rank_maxRisk (a b : RiskLevel) :
    (RiskLevel.maxRisk a b).rank = max a.rank b.rank := by
  unfold RiskLevel.maxRisk
  split <;> omega

/-- Model of `maxRisk` returns one of its arguments. -/
theorem maxRisk_eq_left_or_right (a b : RiskLevel) :
    RiskLevel.maxRisk a b = a ∨ RiskLevel.maxRisk a b = b := by
  unfold RiskLevel.maxRisk
  split <;> simp

/-- The compliance checks collected by `runRules`: one per rule, in rule
order, holding that rule's verdict. -/
theorem runRules_checks (plan : Plan) (observations : List Observation)
    (context : ContextSnapshot) (rules : List VRule) :
    (runRules plan observations context rules).1 = rules.map (fun rule =>
      { rule_name := rule.name
        passed := (rule.verify plan observations context).passed
        details := (rule.verify plan observations context).details }) := by
  induction rules with
  | nil => simp [runRules]
  | cons rule rest ih =>
      rcases hp : (rule.verify plan observations context).passed <;>
        simp [runRules, hp, ih]

/-- The issues collected by `runRules`: one formatted string per failed
rule, in rule order. -/
theorem runRules_issues (plan : Plan) (observations : List Observation)
    (context : ContextSnapshot) (rules : List VRule) :
    (runRules plan observations context rules).2.1 =
      (rules.filter
        (fun rule => !(rule.verify plan observations context).passed)).map
        (fun rule =>
          rule.name ++ ": " ++ (rule.verify plan observations context).details) := by
  induction rules with
  | nil => simp [runRules]
  | cons rule rest ih =>
      rcases hp : (rule.verify plan observations context).passed <;>
        simp [runRules, hp, ih, List.filter_cons]

/-- The risk accumulated by `runRules` dominates the severity of every
failed rule. -/
theorem runRules_risk_bound (plan : Plan) (observations : List Observation)
    (context : ContextSnapshot) (rules : List VRule) :
    ∀ rule ∈ rules, (rule.verify plan observations context).passed = false →
      rule.risk_level.rank ≤ (runRules plan observations context rules).2.2.rank := by
  induction rules with
  | nil => simp
  | cons head rest ih =>
      intro rule hmem hfail
      rcases List.mem_cons.mp hmem with hh | ht
      · subst hh
        simp only [runRules, hfail, Bool.false_eq_true, if_false]
        rw [rank_maxRisk]
        exact Nat.le_max_left _ _
      · rcases hp : (head.verify plan observations context).passed
        · simp only [runRules, hp, Bool.false_eq_true, if_false]
          have hle := ih rule ht hfail
          rw [rank_maxRisk]
          exact le_trans hle (Nat.le_max_right _ _)
        · simp only [runRules, hp, if_true]
          exact ih rule ht hfail

/-- The risk accumulated by `runRules` is `Low` or is the severity of some
failed rule. -/
theorem runRules_risk_attained (plan : Plan) (observations : List Observation)
    (context : ContextSnapshot) (rules : List VRule) :
    (runRules plan observations context rules).2.2 = RiskLevel.Low ∨
      ∃ rule ∈ rules, (rule.verify plan observations context).passed = false ∧
        rule.risk_level = (runRules plan observations context rules).2.2 := by
  induction rules with
  | nil => left; simp [runRules]
  | cons head rest ih =>
      rcases hp : (head.verify plan observations context).passed
      · simp only [runRules, hp, Bool.false_eq_true, if_false]
        rcases maxRisk_eq_left_or_right head.risk_level
            (runRules plan observations context rest).2.2 with hl | hr
        · right
          exact ⟨head, List.mem_cons_self head rest, hp, hl.symm⟩
        · rw [hr]
          rcases ih with hlow | ⟨rule, hmem, hfail, heq⟩
          · left; exact hlow
          · right; exact ⟨rule, List.mem_cons_of_mem head hmem, hfail, heq⟩
      · simp only [runRules, hp, if_true]
        rcases ih with hlow | ⟨rule, hmem, hfail, heq⟩
        · left; exact hlow
        · right; exact ⟨rule, List.mem_cons_of_mem head hmem, hfail, heq⟩

/-- If every rule passes, the accumulated risk stays `Low`. -/
theorem runRules_risk_low (plan : Plan) (observations : List Observation)
    (context : ContextSnapshot) (rules : List VRule)
    (hall : ∀ rule ∈ rules, (rule.verify plan observations context).passed = true) :
    (runRules plan observations context rules).2.2 = RiskLevel.Low := by
  induction rules with
  | nil => simp [runRules]
  | cons head rest ih =>
      have hp := hall head (List.mem_cons_self head rest)
      simp only [runRules, hp, if_true]
      exact ih (fun rule hmem => hall rule (List.mem_cons_of_mem head hmem))

/-- Claim C5: for every rule list, plan, observation list and context,
`verify` evaluates every rule (one `ComplianceCheck` per rule, in order,
carrying that rule's verdict — no short-circuit), appends exactly one
issue string per failed rule, sets `verified` true iff no rule failed, and
sets `risk_level` to the maximum severity among failed rules under the
order `Low < Medium < High < Critical` (and to `Low` when no rule
failed). -/
theorem C5_verify_every_rule (rules : List VRule) (plan : Plan)
    (observations : List Observation) (context : ContextSnapshot) :
    (verify rules plan observations context).compliance_checks =
      rules.map (fun rule =>
        { rule_name := rule.name
          passed := (rule.verify plan observations context).passed
          details := (rule.verify plan observations context).details }) ∧
    (verify rules plan observations context).issues =
      (rules.filter
        (fun rule => !(rule.verify plan observations context).passed)).map
        (fun rule =>
          rule.name ++ ": " ++
            (rule.verify plan observations context).details) ∧
    ((verify rules plan observations context).verified = true ↔
      ∀ rule ∈ rules, (rule.verify plan observations context).passed = true) ∧
    (∀ rule ∈ rules, (rule.verify plan observations context).passed = false →
      rule.risk_level.rank ≤
        (verify rules plan observations context).risk_level.rank) ∧
    ((verify rules plan observations context).risk_level = RiskLevel.Low ∨
      ∃ rule ∈ rules,
        (rule.verify plan observations context).passed = false ∧
          rule.risk_level = (verify rules plan observations context).risk_level) ∧
    ((∀ rule ∈ rules, (rule.verify plan observations context).passed = true) →
      (verify rules plan observations context).risk_level = RiskLevel.Low) := by
  refine ⟨?_, ?_, ?_, ?_, ?_, ?_⟩
  · exact runRules_checks plan observations context rules
  · exact runRules_issues plan observations context rules
  · show ((runRules plan observations context rules).2.1.isEmpty = true) ↔ _
    rw [runRules_issues plan observations context rules]
    simp [List.isEmpty_iff, List.filter_eq_nil_iff]
  · exact runRules_risk_bound plan observations context rules
  · exact runRules_risk_attained plan observations context rules
  · exact runRules_risk_low plan observations context rules

/-- Witness for C5: the spec's scenario with the two default rules and one
failed observation — `all_observations_success` fails with severity High,
`portfolio_risk_constraint` passes — gives `verified = false`,
`risk_level = High` and exactly one issue string; the bound conjunct is
applied at the failing rule. -/
theorem C5_verify_every_rule_witness :
    AllObservationsSuccessRule.risk_level.rank ≤
      (verify create_default_verification_engine plan0 [obsFailed0]
        ctx0).risk_level.rank ∧
    (verify create_default_verification_engine plan0 [obsFailed0]
      ctx0).verified = false ∧
    (verify create_default_verification_engine plan0 [obsFailed0]
      ctx0).risk_level = RiskLevel.High ∧
    (verify create_default_verification_engine plan0 [obsFailed0]
      ctx0).issues.length = 1 := by
  have h := C5_verify_every_rule create_default_verification_engine plan0
    [obsFailed0] ctx0
  refine ⟨h.2.2.2.1 AllObservationsSuccessRule
      (by simp [create_default_verification_engine]) (by decide),
    ?_, by decide, by decide⟩
  have hnot : ¬ ∀ rule ∈ create_default_verification_engine,
      (rule.verify plan0 [obsFailed0] ctx0).passed = true := by
    intro hall
    have := hall AllObservationsSuccessRule
      (by simp [create_default_verification_engine])
    simp [AllObservationsSuccessRule, obsFailed0] at this
  rcases hb : (verify create_default_verification_engine plan0 [obsFailed0]
      ctx0).verified
  · rfl
  · exact absurd (h.2.2.1.mp hb) hnot

/-! ## Claims C2 and C3: the execution engine -/

/-- Unfolding `execStepsAux` at a step with unmet dependencies. -/
theorem execStepsAux_cons_unmet (registry : ToolRegistry)
    (tenant_id user_id plan_id : Nat) (step : PlanStep)
    (rest : List PlanStep) (outputs : OutMap)
    (hm : (missingDeps step outputs).isEmpty = false) :
    execStepsAux registry tenant_id user_id plan_id (step :: rest) outputs =
      (skippedObs tenant_id user_id plan_id step (missingDeps step outputs) ::
        (execStepsAux registry tenant_id user_id plan_id rest outputs).1,
       (execStepsAux registry tenant_id user_id plan_id rest outputs).2) := by
  simp [execStepsAux, hm]

/-- Unfolding `execStepsAux` at a step whose tool is not registered. -/
theorem execStepsAux_cons_no_tool (registry : ToolRegistry)
    (tenant_id user_id plan_id : Nat) (step : PlanStep)
    (rest : List PlanStep) (outputs : OutMap)
    (hm : (missingDeps step outputs).isEmpty = true)
    (hreg : registryGet registry step.tool_name = none) :
    execStepsAux registry tenant_id user_id plan_id (step :: rest) outputs =
      (executedObs tenant_id user_id plan_id step
          (Json.errObj "Tool not registered") ExecutionStatus.Skipped ::
        (execStepsAux registry tenant_id user_id plan_id rest outputs).1,
       (execStepsAux registry tenant_id user_id plan_id rest outputs).2) := by
  simp [execStepsAux, hm, hreg]

/-- Unfolding `execStepsAux` at a step whose tool succeeds. -/
theorem execStepsAux_cons_ok (registry : ToolRegistry)
    (tenant_id user_id plan_id : Nat) (step : PlanStep)
    (rest : List PlanStep) (outputs : OutMap) (tool : ToolFn)
    (output : ToolOutput)
    (hm : (missingDeps step outputs).isEmpty = true)
    (hreg : registryGet registry step.tool_name = some tool)
    (htool : tool ⟨step.tool_name, step.tool_input⟩ = Except.ok output) :
    execStepsAux registry tenant_id user_id plan_id (step :: rest) outputs =
      (executedObs tenant_id user_id plan_id step output.data
          ExecutionStatus.Success ::
        (execStepsAux registry tenant_id user_id plan_id rest
          (insertOut outputs step.order output.data)).1,
       step.step_id ::
        (execStepsAux registry tenant_id user_id plan_id rest
          (insertOut outputs step.order output.data)).2) := by
  simp [execStepsAux, hm, hreg, htool]

/-- Unfolding `execStepsAux` at a step whose tool fails: the loop breaks. -/
theorem execStepsAux_cons_err (registry : ToolRegistry)
    (tenant_id user_id plan_id : Nat) (step : PlanStep)
    (rest : List PlanStep) (outputs : OutMap) (tool : ToolFn) (e : String)
    (hm : (missingDeps step outputs).isEmpty = true)
    (hreg : registryGet registry step.tool_name = some tool)
    (htool : tool ⟨step.tool_name, step.tool_input⟩ = Except.error e) :
    execStepsAux registry tenant_id user_id plan_id (step :: rest) outputs =
      ([executedObs tenant_id user_id plan_id step (Json.errObj e)
          ExecutionStatus.Failed],
       [step.step_id]) := by
  simp [execStepsAux, hm, hreg, htool]

/-- Every step id recorded as invoked by `execStepsAux` belongs to one of
the processed steps. -/
theorem execStepsAux_invoked_sub (registry : ToolRegistry)
    (tenant_id user_id plan_id : Nat) :
    ∀ (steps : List PlanStep) (outputs : OutMap) (x : Nat),
      x ∈ (execStepsAux registry tenant_id user_id plan_id steps outputs).2 →
      x ∈ steps.map PlanStep.step_id := by
  intro steps
  induction steps with
  | nil => intro outputs x hx; simp [execStepsAux] at hx
  | cons step rest ih =>
      intro outputs x hx
      rcases hm : (missingDeps step outputs).isEmpty with _ | _
      · rw [execStepsAux_cons_unmet registry tenant_id user_id plan_id step
          rest outputs hm] at hx
        exact List.mem_cons_of_mem _ (ih outputs x hx)
      · rcases hreg : registryGet registry step.tool_name with _ | tool
        · rw [execStepsAux_cons_no_tool registry tenant_id user_id plan_id
            step rest outputs hm hreg] at hx
          exact List.mem_cons_of_mem _ (ih outputs x hx)
        · rcases htool : tool ⟨step.tool_name, step.tool_input⟩ with e | output
          · rw [execStepsAux_cons_err registry tenant_id user_id plan_id step
              rest outputs tool e hm hreg htool] at hx
            simp at hx
            simp [hx]
          · rw [execStepsAux_cons_ok registry tenant_id user_id plan_id step
              rest outputs tool output hm hreg htool] at hx
            rcases List.mem_cons.mp hx with hx | hx
            · simp [hx]
            · exact List.mem_cons_of_mem _
                (ih (insertOut outputs step.order output.data) x hx)

/-- Claim C2: when a step `S` is reached with the map `outputs` of
successful outputs recorded by the earlier-processed steps (the engine's
`step_outputs`, which holds exactly the orders of steps that produced a
`Success` output so far), and some declared dependency order `k` of `S` is
absent from that map, the engine emits for `S` a `Skipped` observation
whose error payload lists the missing dependency orders, and never invokes
`S`'s tool.  `execStepsAux registry _ _ _ (S :: rest) outputs` is exactly
the remaining evaluation of `execute_plan` from the point where `S` is
reached. -/
theorem C2_unmet_dependency_skips (registry : ToolRegistry)
    (tenant_id user_id plan_id : Nat) (S : PlanStep) (rest : List PlanStep)
    (outputs : OutMap) (k : Nat) (hk : k ∈ S.dependencies)
    (hnone : lookupOut outputs k = none)
    (hid : S.step_id ∉ rest.map PlanStep.step_id) :
    (execStepsAux registry tenant_id user_id plan_id (S :: rest)
        outputs).1.head? =
      some (skippedObs tenant_id user_id plan_id S (missingDeps S outputs)) ∧
    (skippedObs tenant_id user_id plan_id S
      (missingDeps S outputs)).status = ExecutionStatus.Skipped ∧
    (skippedObs tenant_id user_id plan_id S
      (missingDeps S outputs)).tool_output =
      Json.errObj (unmetDepsMsg (missingDeps S outputs)) ∧
    S.step_id ∉ (execStepsAux registry tenant_id user_id plan_id (S :: rest)
      outputs).2 := by
  have hkmem : k ∈ missingDeps S outputs :=
    List.mem_filter.mpr ⟨hk, by simp [hnone]⟩
  have hm : (missingDeps S outputs).isEmpty = false := by
    rcases hfil : missingDeps S outputs with _ | _
    · rw [hfil] at hkmem; simp at hkmem
    · simp
  rw [execStepsAux_cons_unmet registry tenant_id user_id plan_id S rest
    outputs hm]
  refine ⟨rfl, rfl, rfl, ?_⟩
  intro hx
  exact hid (execStepsAux_invoked_sub registry tenant_id user_id plan_id
    rest outputs S.step_id hx)

/-- If no observation returned by the engine's loop is `Failed`, every
step was processed: the observation list has one entry per step. -/
theorem execStepsAux_noFail_length (registry : ToolRegistry)
    (tenant_id user_id plan_id : Nat) :
    ∀ (steps : List PlanStep) (outputs : OutMap),
      (∀ obs ∈ (execStepsAux registry tenant_id user_id plan_id steps
          outputs).1, obs.status ≠ ExecutionStatus.Failed) →
      (execStepsAux registry tenant_id user_id plan_id steps
        outputs).1.length = steps.length := by
  intro steps
  induction steps with
  | nil => intro outputs _; simp [execStepsAux]
  | cons step rest ih =>
      intro outputs hnf
      rcases hm : (missingDeps step outputs).isEmpty with _ | _
      · rw [execStepsAux_cons_unmet registry tenant_id user_id plan_id step
          rest outputs hm] at hnf ⊢
        simp only [List.length_cons]
        rw [ih outputs (fun obs hobs => hnf obs (List.mem_cons_of_mem _ hobs))]
      · rcases hreg : registryGet registry step.tool_name with _ | tool
        · rw [execStepsAux_cons_no_tool registry tenant_id user_id plan_id
            step rest outputs hm hreg] at hnf ⊢
          simp only [List.length_cons]
          rw [ih outputs
            (fun obs hobs => hnf obs (List.mem_cons_of_mem _ hobs))]
        · rcases htool : tool ⟨step.tool_name, step.tool_input⟩ with e | output
          · rw [execStepsAux_cons_err registry tenant_id user_id plan_id step
              rest outputs tool e hm hreg htool] at hnf
            exact absurd rfl (hnf (executedObs tenant_id user_id plan_id step
              (Json.errObj e) ExecutionStatus.Failed) (by simp))
          · rw [execStepsAux_cons_ok registry tenant_id user_id plan_id step
              rest outputs tool output hm hreg htool] at hnf ⊢
            simp only [List.length_cons]
            rw [ih (insertOut outputs step.order output.data)
              (fun obs hobs => hnf obs (List.mem_cons_of_mem _ hobs))]

/-- A `Failed` observation is always the final entry of the engine's
observation list: execution halts right after recording it. -/
theorem execStepsAux_fail_last (registry : ToolRegistry)
    (tenant_id user_id plan_id : Nat) :
    ∀ (steps : List PlanStep) (outputs : OutMap) (i : Nat)
      (obs_i : Observation),
      (execStepsAux registry tenant_id user_id plan_id steps
        outputs).1.get? i = some obs_i →
      obs_i.status = ExecutionStatus.Failed →
      (execStepsAux registry tenant_id user_id plan_id steps
        outputs).1.length = i + 1 := by
  intro steps
  induction steps with
  | nil => intro outputs i obs_i hget; simp [execStepsAux] at hget
  | cons step rest ih =>
      intro outputs i obs_i hget hfail
      rcases hm : (missingDeps step outputs).isEmpty with _ | _
      · rw [execStepsAux_cons_unmet registry tenant_id user_id plan_id step
          rest outputs hm] at hget ⊢
        match i with
        | 0 =>
            rw [List.get?_cons_zero] at hget
            cases hget
            simp [skippedObs] at hfail
        | i + 1 =>
            rw [List.get?_cons_succ] at hget
            simp only [List.length_cons]
            rw [ih outputs i obs_i hget hfail]
      · rcases hreg : registryGet registry step.tool_name with _ | tool
        · rw [execStepsAux_cons_no_tool registry tenant_id user_id plan_id
            step rest outputs hm hreg] at hget ⊢
          match i with
          | 0 =>
              rw [List.get?_cons_zero] at hget
              cases hget
              simp [executedObs] at hfail
          | i + 1 =>
              rw [List.get?_cons_succ] at hget
              simp only [List.length_cons]
              rw [ih outputs i obs_i hget hfail]
        · rcases htool : tool ⟨step.tool_name, step.tool_input⟩ with e | output
          · rw [execStepsAux_cons_err registry tenant_id user_id plan_id step
              rest outputs tool e hm hreg htool] at hget ⊢
            match i with
            | 0 => simp
            | i + 1 => rw [List.get?_cons_succ] at hget; simp at hget
          · rw [execStepsAux_cons_ok registry tenant_id user_id plan_id step
              rest outputs tool output hm hreg htool] at hget ⊢
            match i with
            | 0 =>
                rw [List.get?_cons_zero] at hget
                cases hget
                simp [executedObs] at hfail
            | i + 1 =>
                rw [List.get?_cons_succ] at hget
                simp only [List.length_cons]
                rw [ih (insertOut outputs step.order output.data) i obs_i
                  hget hfail]

/-- Claim C3: for every plan accepted by `execute_plan`, a `Failed`
observation at index `i` makes the returned list exactly `i + 1` long — no
subsequent step is processed after the first (indeed, only) failure — and
if no observation is `Failed` (in particular when some are merely
`Skipped`), every step of the plan was processed: `Skipped` observations
do not halt execution. -/
theorem C3_fail_fast (registry : ToolRegistry) (plan : Plan)
    (tenant_id user_id : Nat) (observations : List Observation)
    (hexec : execute_plan registry plan tenant_id user_id =
      Except.ok observations) :
    ((∀ obs ∈ observations, obs.status ≠ ExecutionStatus.Failed) →
      observations.length = plan.steps.length) ∧
    (∀ i, (hi : i < observations.length) →
      (observations.get ⟨i, hi⟩).status = ExecutionStatus.Failed →
      observations.length = i + 1) := by
  have hobs : observations =
      (execStepsAux registry tenant_id user_id plan.plan_id plan.steps []).1 := by
    unfold execute_plan at hexec
    by_cases hlen : plan.steps.length > ENGINE_MAX_STEPS_PER_PLAN
    · rw [if_pos hlen] at hexec; cases hexec
    · rw [if_neg hlen] at hexec
      cases hexec; rfl
  subst hobs
  refine ⟨execStepsAux_noFail_length registry tenant_id user_id plan.plan_id
      plan.steps [], ?_⟩
  intro i hi hfail
  exact execStepsAux_fail_last registry tenant_id user_id plan.plan_id
    plan.steps [] i _ (List.get?_eq_get hi) hfail

/-- Witness for C2: a concrete step depending on order 7 with an empty
outputs map is skipped with the missing order in its payload, and its tool
is not invoked. -/
theorem C2_unmet_dependency_skips_witness :
    (execStepsAux registryW 2 3 11 [stepDep] []).1.head? =
      some (skippedObs 2 3 11 stepDep (missingDeps stepDep [])) ∧
    (skippedObs 2 3 11 stepDep (missingDeps stepDep [])).status =
      ExecutionStatus.Skipped ∧
    (skippedObs 2 3 11 stepDep (missingDeps stepDep [])).tool_output =
      Json.errObj (unmetDepsMsg (missingDeps stepDep [])) ∧
    stepDep.step_id ∉ (execStepsAux registryW 2 3 11 [stepDep] []).2 :=
  C2_unmet_dependency_skips registryW 2 3 11 stepDep [] [] 7 (by decide)
    rfl (by decide)

/-- Witness for C3: on the concrete three-step plan whose second step
fails, the returned list stops at the failure — its length is the failing
index plus one. -/
theorem C3_fail_fast_witness : obsListW.length = 1 + 1 :=
  (C3_fail_fast registryW planW 2 3 obsListW rfl).2 1 (by decide)
    (by decide)

/-! ## Claims C1, C4, C6: the orchestration loop -/

/-- The loop makes at most `MAX_REPLAN_ATTEMPTS + 1 - replan_count` further
planner calls from any state: each iteration makes one call and increments
the counter, and a counter beyond the bound terminates with no call. -/
theorem runLoop_planner_calls_le (m : OrchestratorModel) (goal : Goal)
    (context : ContextSnapshot) :
    ∀ (fuel : Nat) (tr : List String) (rc : Nat),
      (runLoop m goal context tr fuel rc).planner_calls ≤
        MAX_REPLAN_ATTEMPTS + 1 - rc := by
  intro fuel
  induction fuel with
  | zero => intro tr rc; simp [runLoop]
  | succ n ih =>
      intro tr rc
      simp only [runLoop]
      split
      · simp
      · next hrc =>
          simp only [MAX_REPLAN_ATTEMPTS] at hrc ⊢
          split
          · simp; omega
          · split
            · simp; omega
            · split
              · simp; omega
              · split
                · simp; omega
                · split
                  · simp; omega
                  · split
                    · simp; omega
                    · next =>
                        have h2 : ∀ tr2,
                            1 + (runLoop m goal context tr2 n
                              (rc + 1)).planner_calls ≤ 5 + 1 - rc := by
                          intro tr2
                          have h3 := ih tr2 (rc + 1)
                          simp only [MAX_REPLAN_ATTEMPTS] at h3
                          omega
                        exact h2 _

/-- Claim C1: one `run` call invokes the planner at most
`MAX_REPLAN_ATTEMPTS + 1 = 6` times, and from any loop state whose replan
counter exceeds `MAX_REPLAN_ATTEMPTS` the loop returns the
`MaxReplansExceeded` terminal error naming the bound, making no further
planner call (and writing nothing). -/
theorem C1_planner_call_bound (m : OrchestratorModel) (goal : Goal) :
    (Orchestrator.run m goal).planner_calls ≤ MAX_REPLAN_ATTEMPTS + 1 ∧
    (∀ (context : ContextSnapshot) (tr : List String) (fuel rc : Nat),
      rc > MAX_REPLAN_ATTEMPTS → 0 < fuel →
      runLoop m goal context tr fuel rc =
        ⟨Except.error (OrchestrationError.MaxReplansExceeded
            ("Exceeded " ++ toString MAX_REPLAN_ATTEMPTS ++
              " replan attempts")),
          0, [], []⟩) := by
  constructor
  · unfold Orchestrator.run
    rcases hl : m.load_context goal.user_id with e | context
    · simp
    · have hb := runLoop_planner_calls_le m goal context
        (MAX_REPLAN_ATTEMPTS + 2)
        ["INPUT: Goal received", "PLAN: Creating execution plan"] 0
      simpa using hb
  · intro context tr fuel rc hrc hfuel
    cases fuel with
    | zero => exact absurd hfuel (Nat.lt_irrefl 0)
    | succ n =>
        simp only [runLoop]
        rw [if_pos hrc]

/-- From any loop state: every audit record the loop writes carries a
verification result with `verified = true`, the loop returns `Ok` iff it
wrote exactly one audit record, and an error return writes none. -/
theorem runLoop_audit (m : OrchestratorModel) (goal : Goal)
    (context : ContextSnapshot) :
    ∀ (fuel : Nat) (tr : List String) (rc : Nat),
      (∀ record ∈ (runLoop m goal context tr fuel rc).audit_records,
        record.verification_result.verified = true) ∧
      ((∃ res, (runLoop m goal context tr fuel rc).result = Except.ok res) ↔
        (runLoop m goal context tr fuel rc).audit_records.length = 1) ∧
      (∀ e, (runLoop m goal context tr fuel rc).result = Except.error e →
        (runLoop m goal context tr fuel rc).audit_records = []) := by
  intro fuel
  induction fuel with
  | zero => intro tr rc; simp [runLoop]
  | succ n ih =>
      intro tr rc
      simp only [runLoop]
      split
      · simp
      · split
        · simp
        · split
          · simp
          · split
            · simp
            · split
              · simp
              · split
                · simp
                · split
                  · next hv => simp [hv]
                  · next =>
                      refine ⟨?_, ?_, ?_⟩
                      · exact (ih _ _).1
                      · exact (ih _ _).2.1
                      · exact (ih _ _).2.2

/-- Claim C4: over one `run` call, an `ExecutionRecord` reaches the audit
log iff the verification engine returned `verified = true` for that
attempt: every record written carries `verified = true`, a successful
completion writes exactly one record (and `run` succeeds iff exactly one
record was written), and every error return writes none. -/
theorem C4_audit_iff_verified (m : OrchestratorModel) (goal : Goal) :
    (∀ record ∈ (Orchestrator.run m goal).audit_records,
      record.verification_result.verified = true) ∧
    ((∃ res, (Orchestrator.run m goal).result = Except.ok res) ↔
      (Orchestrator.run m goal).audit_records.length = 1) ∧
    (∀ e, (Orchestrator.run m goal).result = Except.error e →
      (Orchestrator.run m goal).audit_records = []) := by
  unfold Orchestrator.run
  rcases hl : m.load_context goal.user_id with e | context
  · simp
  · exact runLoop_audit m goal context (MAX_REPLAN_ATTEMPTS + 2)
      ["INPUT: Goal received", "PLAN: Creating execution plan"] 0

/-- Claim C6: from any loop state, when the planner returns a plan with
exactly one step and the executed observations contain a non-`Success`
one, the loop returns an `ExecutionError` built from that observation
immediately: one planner call, nothing persisted, nothing audited — it
returns before the persistence loop, verification and the replan branch.
Under the matching entry-state hypotheses the same holds for the whole
`run` call. -/
theorem C6_single_step_fast_fail (m : OrchestratorModel) (goal : Goal)
    (context : ContextSnapshot) (tr : List String) (fuel rc : Nat)
    (plan : Plan) (s : PlanStep) (observations : List Observation)
    (failed : Observation) (hfuel : 0 < fuel)
    (hrc : rc ≤ MAX_REPLAN_ATTEMPTS)
    (hplan : m.create_plan goal context
      (if rc > 0 then some "Previous execution failed verification"
        else none) rc = Except.ok plan)
    (hsteps : plan.steps = [s])
    (hexec : execute_plan m.tool_registry plan goal.tenant_id goal.user_id =
      Except.ok observations)
    (hfind : observations.find?
      (fun obs => obs.status != ExecutionStatus.Success) = some failed) :
    runLoop m goal context tr fuel rc =
      ⟨Except.error (OrchestrationError.ExecutionError
          (failed.tool_name ++ " failed: " ++ errDetail failed.tool_output)),
        1, [], []⟩ ∧
    (m.load_context goal.user_id = Except.ok context → rc = 0 →
      fuel = MAX_REPLAN_ATTEMPTS + 2 →
      tr = ["INPUT: Goal received", "PLAN: Creating execution plan"] →
      Orchestrator.run m goal =
        ⟨Except.error (OrchestrationError.ExecutionError
            (failed.tool_name ++ " failed: " ++
              errDetail failed.tool_output)),
          1, [], []⟩) := by
  have hmain : runLoop m goal context tr fuel rc =
      ⟨Except.error (OrchestrationError.ExecutionError
          (failed.tool_name ++ " failed: " ++ errDetail failed.tool_output)),
        1, [], []⟩ := by
    cases fuel with
    | zero => exact absurd hfuel (Nat.lt_irrefl 0)
    | succ n =>
        have hgt : ¬ (rc > MAX_REPLAN_ATTEMPTS) := by omega
        have hlen : ¬ (plan.steps.length > MAX_STEPS_PER_PLAN) := by
          rw [hsteps]; simp [MAX_STEPS_PER_PLAN]
        have hsf : singleStepFastFail plan observations =
            some (OrchestrationError.ExecutionError
              (failed.tool_name ++ " failed: " ++
                errDetail failed.tool_output)) := by
          simp [singleStepFastFail, hsteps, hfind]
        simp only [runLoop, if_neg hgt, hplan, if_neg hlen, hexec, hsf]
  refine ⟨hmain, ?_⟩
  intro hload hrc0 hfuel7 htr
  unfold Orchestrator.run
  rw [hload]
  rw [hrc0, hfuel7, htr] at hmain
  exact hmain

/-- Witness for C1: at a concrete loop state whose counter is 6, the loop
returns the max-replans error with zero planner calls; and the concrete
full run obeys the call bound. -/
theorem C1_planner_call_bound_witness :
    runLoop mFail goal0 ctx0 [] 1 6 =
      ⟨Except.error (OrchestrationError.MaxReplansExceeded
          ("Exceeded " ++ toString MAX_REPLAN_ATTEMPTS ++
            " replan attempts")),
        0, [], []⟩ ∧
    (Orchestrator.run mFail goal0).planner_calls ≤ MAX_REPLAN_ATTEMPTS + 1 :=
  ⟨(C1_planner_call_bound mFail goal0).2 ctx0 [] 1 6 (by decide) (by decide),
   (C1_planner_call_bound mFail goal0).1⟩

/-- Witness for C4: a concrete successful run writes exactly one audit
record, and every record written carries `verified = true`. -/
theorem C4_audit_iff_verified_witness :
    (Orchestrator.run mOk goal0).audit_records.length = 1 ∧
    (∀ record ∈ (Orchestrator.run mOk goal0).audit_records,
      record.verification_result.verified = true) :=
  ⟨(C4_audit_iff_verified mOk goal0).2.1.mp ⟨_, rfl⟩,
   (C4_audit_iff_verified mOk goal0).1⟩

/-- Witness for C6: the concrete run whose planner proposes a single-step
plan with a failing tool returns the execution error naming the tool, with
one planner call, nothing persisted and nothing audited. -/
theorem C6_single_step_fast_fail_witness :
    Orchestrator.run mFail goal0 =
      ⟨Except.error (OrchestrationError.ExecutionError
          (obsFailSingle.tool_name ++ " failed: " ++
            errDetail obsFailSingle.tool_output)),
        1, [], []⟩ :=
  (C6_single_step_fast_fail mFail goal0 ctx0
      ["INPUT: Goal received", "PLAN: Creating execution plan"]
      (MAX_REPLAN_ATTEMPTS + 2) 0 planSingleBad stepBad
      [obsFailSingle] obsFailSingle (by decide) (by decide)
      rfl rfl rfl rfl).2 rfl rfl rfl rfl

end AgentSamwise
